import Mathlib

/-!
Verification of the Reliability Calculus & Maintenance-Interval Optimization
core of the Operational-Performance-Monitoring repository.

The Python source (src/core.py, src/app.py) is shallowly embedded over
exact rational arithmetic (ℚ):
  - Python floats become ℚ; the distinguished value float('inf') that the
    reverse solvers return is modelled by a dedicated constructor of
    `PyFloat`, so that it is distinguishable from every finite result.
  - NumPy arrays become lists, elementwise operations become `List.zipWith`.
  - pandas DataFrames of observations become lists of `Obs` records kept in
    table order; `Series.idxmin` becomes "index of the first element whose
    value is less than or equal to every other value" (`idxmin` below),
    which is exactly pandas' first-occurrence tie-breaking.
All definitions are computable so concrete scenarios can be evaluated.
-/

namespace OPM

/-- Model of the Python float results of the reverse solvers: either a
finite rational or the distinguished value float('inf'). -/
inductive PyFloat where
  | fin (q : ℚ)
  | inf
  deriving DecidableEq, Repr

/-- Embedding of core.df_from_mtbf_mttr for scalar inputs: the denominator
mtbf + mttr is formed, the output buffer is zero-initialised, and the
division is performed only where the denominator is nonzero
(np.divide with the where-mask), so a zero denominator yields 0. -/
def df_from_mtbf_mttr (mtbf mttr : ℚ) : ℚ :=
  let denominator := mtbf + mttr
  if denominator = 0 then 0 else mtbf / denominator

/-- Embedding of core.df_from_mtbf_mttr applied elementwise to equal-length
NumPy arrays (broadcasting of np.add / np.divide over same-shape arrays). -/
def df_from_mtbf_mttr_arr (mtbf mttr : List ℚ) : List ℚ :=
  List.zipWith df_from_mtbf_mttr mtbf mttr

/-- Embedding of core.mttr_for_df: returns 0.0 when df_target >= 1,
float('inf') when df_target <= 0, otherwise mtbf*(1-df_target)/df_target. -/
def mttr_for_df (mtbf df_target : ℚ) : PyFloat :=
  if df_target ≥ 1 then .fin 0
  else if df_target ≤ 0 then .inf
  else .fin (mtbf * (1 - df_target) / df_target)

/-- Embedding of core.mtbf_for_df: returns float('inf') when
df_target >= 1, 0.0 when df_target <= 0, otherwise
mttr*df_target/(1-df_target). -/
def mtbf_for_df (mttr df_target : ℚ) : PyFloat :=
  if df_target ≥ 1 then .inf
  else if df_target ≤ 0 then .fin 0
  else .fin (mttr * df_target / (1 - df_target))

/-- Embedding of core.calculate_operational_df. -/
def calculate_operational_df
    (inherent_availability pm_downtime_hours calendar_hours : ℚ) : ℚ :=
  if calendar_hours = 0 then inherent_availability
  else max 0 (inherent_availability - pm_downtime_hours / calendar_hours)

/-- Embedding of core.calcular_df_projetada. -/
def calcular_df_projetada
    (downtime_real_acumulado downtime_futuro_projetado horas_totais_mes : ℚ) : ℚ :=
  let downtime_total := downtime_real_acumulado + downtime_futuro_projetado
  if horas_totais_mes ≤ 0 then 0
  else max 0 (1 - downtime_total / horas_totais_mes)

/-- Return record of app.calcular_kpis (all fields of the returned dict). -/
structure KPIs where
  df : ℚ
  mtbf : ℚ
  mttr : ℚ
  taxa_preventiva : ℚ
  horas_operadas : ℚ
  horas_manutencao_total : ℚ
  horas_preventiva : ℚ
  horas_corretiva : ℚ
  horas_standby : ℚ
  horas_calendario : ℚ
  horas_disponiveis : ℚ
  deriving DecidableEq, Repr

/-- Embedding of app.calcular_kpis. The metodo argument is the Python
string selector: the code tests metodo == "metodo1" and treats every other
string as método 2. Each Python guarded division (`x / y if y > 0 else 0`)
becomes the corresponding if-then-else. -/
def calcular_kpis
    (horas_calendario horas_preventiva horas_corretiva num_falhas : ℚ)
    (metodo : String) : KPIs :=
  let horas_manutencao_total := horas_preventiva + horas_corretiva
  let branch :=
    if metodo = "metodo1" then
      let horas_operadas := horas_calendario - horas_manutencao_total
      let df := if horas_calendario > 0 then horas_operadas / horas_calendario * 100 else 0
      let mtbf := if num_falhas > 0 then horas_operadas / num_falhas else 0
      (df, mtbf, horas_operadas)
    else
      let horas_disponiveis := horas_calendario - horas_preventiva
      let horas_operadas := horas_disponiveis - horas_corretiva
      let mtbf := if num_falhas > 0 then horas_disponiveis / num_falhas else 0
      let mttr_temp := if num_falhas > 0 then horas_corretiva / num_falhas else 0
      let df := if mtbf + mttr_temp > 0 then mtbf / (mtbf + mttr_temp) * 100 else 0
      (df, mtbf, horas_operadas)
  let df := branch.1
  let mtbf := branch.2.1
  let horas_operadas := branch.2.2
  let mttr := if num_falhas > 0 then horas_corretiva / num_falhas else 0
  let horas_standby := max 0 (horas_calendario - horas_operadas - horas_manutencao_total)
  let taxa_preventiva :=
    if horas_manutencao_total > 0 then horas_preventiva / horas_manutencao_total * 100 else 0
  { df := df, mtbf := mtbf, mttr := mttr, taxa_preventiva := taxa_preventiva,
    horas_operadas := horas_operadas, horas_manutencao_total := horas_manutencao_total,
    horas_preventiva := horas_preventiva, horas_corretiva := horas_corretiva,
    horas_standby := horas_standby, horas_calendario := horas_calendario,
    horas_disponiveis :=
      if metodo = "metodo2" then horas_calendario - horas_preventiva else horas_calendario }

/-- One row of the df_curva observation table consumed by
app.calcular_ponto_otimo_intervencao and app.ajustar_curva_degradacao. -/
structure Obs where
  tempo_desde_preventiva_horas : ℚ
  mtbf_observado : ℚ
  mttr_observado : ℚ
  num_falhas : ℚ
  deriving DecidableEq, Repr

/-- Column df_calculada added by app.calcular_ponto_otimo_intervencao:
mtbf_observado / (mtbf_observado + mttr_observado) * 100. -/
def df_calculada (o : Obs) : ℚ :=
  o.mtbf_observado / (o.mtbf_observado + o.mttr_observado) * 100

/-- One row of the df_custos frame built inside
app.calcular_ponto_otimo_intervencao. -/
structure CostRow where
  tempo : ℚ
  custo_total : ℚ
  custo_por_hora : ℚ
  df : ℚ
  deriving DecidableEq, Repr

/-- pandas Series.idxmin in positional form: the index of the first element
whose value is less than or equal to every element of the list (pandas
returns the first occurrence of the minimum). -/
def idxmin {α : Type} (f : α → ℚ) (l : List α) : ℕ :=
  l.findIdx (fun x => l.all (fun y => decide (f x ≤ f y)))

/-- tempo_max_alvo of app.calcular_ponto_otimo_intervencao: the maximum
tempo among rows whose df_calculada reaches df_alvo, or 0 when no row does. -/
def tempo_max_alvo_calc (obs : List Obs) (df_alvo : ℚ) : ℚ :=
  let df_acima_alvo := obs.filter (fun o => decide (df_calculada o ≥ df_alvo))
  match df_acima_alvo with
  | [] => 0
  | o :: os =>
    (os.map Obs.tempo_desde_preventiva_horas).foldl max o.tempo_desde_preventiva_horas

/-- The custos list of app.calcular_ponto_otimo_intervencao: one CostRow per
observation row, in table order. num_falhas_acum sums num_falhas over all
rows whose tempo is at most the current row's tempo; custo_por_hora is
custo_total / tempo when tempo > 0 and the sentinel 0 otherwise. -/
def custos_list (obs : List Obs) (custo_preventiva custo_corretiva : ℚ) : List CostRow :=
  obs.map (fun row =>
    let tempo := row.tempo_desde_preventiva_horas
    let num_falhas_acum :=
      ((obs.filter (fun r => decide (r.tempo_desde_preventiva_horas ≤ tempo))).map
        Obs.num_falhas).sum
    let custo_total := custo_preventiva + num_falhas_acum * custo_corretiva
    let custo_por_hora := if tempo > 0 then custo_total / tempo else 0
    { tempo := tempo, custo_total := custo_total, custo_por_hora := custo_por_hora,
      df := df_calculada row })

/-- The candidate rows the selector minimizes over: the viable subset
(df at or above 95% of df_alvo) when it is nonempty, otherwise the full
custos list — exactly the if len(df_custos_viavel) > 0 branch of the code. -/
def candidatos (obs : List Obs) (df_alvo custo_preventiva custo_corretiva : ℚ) : List CostRow :=
  let df_custos := custos_list obs custo_preventiva custo_corretiva
  let df_custos_viavel := df_custos.filter (fun c => decide (c.df ≥ df_alvo * (19 / 20)))
  if df_custos_viavel.length > 0 then df_custos_viavel else df_custos

/-- Result record of app.calcular_ponto_otimo_intervencao. -/
structure OptResult where
  tempo_otimo : ℚ
  df_no_ponto_otimo : ℚ
  custo_por_hora_otimo : ℚ
  tempo_max_alvo : ℚ
  df_custos : List CostRow
  deriving DecidableEq, Repr

/-- Embedding of app.calcular_ponto_otimo_intervencao. The row lookup
Series.idxmin followed by DataFrame.loc becomes indexing at `idxmin`;
on an empty table pandas idxmin raises, modelled as `none`. -/
def calcular_ponto_otimo_intervencao
    (obs : List Obs) (df_alvo custo_preventiva custo_corretiva : ℚ) : Option OptResult :=
  let df_custos := custos_list obs custo_preventiva custo_corretiva
  let cand := candidatos obs df_alvo custo_preventiva custo_corretiva
  match cand[idxmin CostRow.custo_por_hora cand]? with
  | none => none
  | some ponto_otimo =>
    some { tempo_otimo := ponto_otimo.tempo, df_no_ponto_otimo := ponto_otimo.df,
           custo_por_hora_otimo := ponto_otimo.custo_por_hora,
           tempo_max_alvo := tempo_max_alvo_calc obs df_alvo, df_custos := df_custos }

/-- np.linspace lo hi n with endpoint (numpy default): point i is
lo + (hi - lo) * i / (n - 1). -/
def linspace (lo hi : ℚ) (n : ℕ) : List ℚ :=
  (List.range n).map (fun i : ℕ => lo + (hi - lo) * (i : ℚ) / ((n : ℚ) - 1))

/-- ndarray.min zero on empty (unreachable in the embedded call sites). -/
def npMin : List ℚ → ℚ
  | [] => 0
  | a :: as => as.foldl min a

/-- ndarray.max zero on empty (unreachable in the embedded call sites). -/
def npMax : List ℚ → ℚ
  | [] => 0
  | a :: as => as.foldl max a

/-- scipy.interpolate.interp1d with kind linear and extrapolate fill on the
node list: inside a segment, linear between its endpoints; below the first
node the first segment extrapolates; above the last node the last segment
extrapolates. -/
def interp_linear : List (ℚ × ℚ) → ℚ → ℚ
  | [], _ => 0
  | [p], _ => p.2
  | p :: q :: rest, t =>
    if t ≤ q.1 ∨ rest = [] then p.2 + (t - p.1) * (q.2 - p.2) / (q.1 - p.1)
    else interp_linear (q :: rest) t

/-- Environment abstracting the two external numeric collaborators of
app.ajustar_curva_degradacao: `solver` is the iterative least-squares
optimizer inside scipy.optimize.curve_fit on sufficiently many points
(`none` models a raised fit failure, caught by the bare except), and
`expq` is a rational model of np.exp. -/
structure FitEnv where
  solver : List ℚ → List ℚ → Option (ℚ × ℚ × ℚ)
  expq : ℚ → ℚ

/-- scipy.optimize.curve_fit with the 3-parameter model a*exp(-b*x)+c:
with fewer data points than parameters scipy raises before iterating
(modelled as `none`); otherwise the abstract optimizer decides. -/
def scipy_curve_fit (env : FitEnv) (x y : List ℚ) : Option (ℚ × ℚ × ℚ) :=
  if x.length < 3 then none else env.solver x y

/-- The model function func_exp of app.ajustar_curva_degradacao:
a * exp(-b * x) + c, over the environment's rational exponential. -/
def func_exp (env : FitEnv) (a b c t : ℚ) : ℚ :=
  a * env.expq (-(b * t)) + c

/-- Embedding of app.ajustar_curva_degradacao: try the exponential fit; on
success sample the fitted model on linspace(x.min, x.max, 100) and return
the parameters; on failure sample the linear interpolant of the raw
observations on the same linspace and return no parameters. -/
def ajustar_curva_degradacao (env : FitEnv) (x y : List ℚ) :
    List ℚ × List ℚ × Option (ℚ × ℚ × ℚ) :=
  let x_fit := linspace (npMin x) (npMax x) 100
  match scipy_curve_fit env x y with
  | some popt => (x_fit, x_fit.map (func_exp env popt.1 popt.2.1 popt.2.2), some popt)
  | none => (x_fit, x_fit.map (interp_linear (x.zip y)), none)

/-- Observation table of the spec's section-8 scenario: (time, observed
MTBF) pairs (0,200), (100,150), (200,100), completed with a uniform
observed MTTR of 10 hours and failure counts 0, 1, 1. -/
def cenario_secao8 : List Obs :=
  [⟨0, 200, 10, 0⟩, ⟨100, 150, 10, 1⟩, ⟨200, 100, 10, 1⟩]

/-- Witness table for C8: two viable rows with exactly equal cost per hour
(1000 at t = 1 and t = 2). -/
def obs_tie : List Obs := [⟨1, 100, 0, 0⟩, ⟨2, 100, 0, 1⟩]

/-- Witness result for C8 on obs_tie: the full selector output. -/
def r_tie : OptResult :=
  { tempo_otimo := 1, df_no_ponto_otimo := 100, custo_por_hora_otimo := 1000,
    tempo_max_alvo := 2,
    df_custos := [⟨1, 1000, 1000, 100⟩, ⟨2, 2000, 1000, 100⟩] }

/-! ## Theorems -/

/-- C2: for every mtbf, mttr_for_df signals the distinct infeasible outcome
(float('inf'), which no valid finite result ever equals) exactly when
df_target ≤ 0, returns 0 when df_target ≥ 1, and returns
mtbf*(1-df_target)/df_target for df_target strictly between 0 and 1. -/
theorem c2_mttr_for_df_boundary (mtbf df_target : ℚ) :
    (mttr_for_df mtbf df_target = PyFloat.inf ↔ df_target ≤ 0) ∧
    (df_target ≥ 1 → mttr_for_df mtbf df_target = PyFloat.fin 0) ∧
    (0 < df_target → df_target < 1 →
      mttr_for_df mtbf df_target = PyFloat.fin (mtbf * (1 - df_target) / df_target)) := by
  unfold mttr_for_df
  split_ifs with h1 h2
  · refine ⟨⟨fun h => absurd h (by simp), fun h => absurd h (by linarith)⟩, fun _ => rfl,
      fun _ h => absurd h1 (by linarith)⟩
  · exact ⟨⟨fun _ => h2, fun _ => rfl⟩, fun h => absurd h h1, fun h _ => absurd h2 (by linarith)⟩
  · refine ⟨⟨fun h => absurd h (by simp), fun h => absurd h h2⟩,
      fun h => absurd h h1, fun _ _ => rfl⟩

/-- Witness for C2 at concrete inputs: target 0 yields the infeasible
signal, target 2 yields 0, target 1/2 yields 500*(1-1/2)/(1/2) = 500. -/
theorem c2_mttr_for_df_boundary_witness :
    mttr_for_df 500 0 = PyFloat.inf ∧ mttr_for_df 500 2 = PyFloat.fin 0 ∧
    mttr_for_df 500 (1 / 2) = PyFloat.fin 500 := by
  refine ⟨(c2_mttr_for_df_boundary 500 0).1.mpr (by norm_num),
    (c2_mttr_for_df_boundary 500 2).2.1 (by norm_num), ?_⟩
  rw [(c2_mttr_for_df_boundary 500 (1 / 2)).2.2 (by norm_num) (by norm_num)]
  norm_num

/-- C4: for inherent availability in [0,1], pm_hours ≥ 0 and
calendar_hours ≥ 0, calculate_operational_df returns the inherent value
unchanged when calendar_hours = 0 and max 0 (inherent - pm/calendar)
otherwise, and the result always lies in [0,1]. -/
theorem c4_operational_df_clamped (ia pm cal : ℚ)
    (hia0 : 0 ≤ ia) (hia1 : ia ≤ 1) (hpm : 0 ≤ pm) (hcal : 0 ≤ cal) :
    (cal = 0 → calculate_operational_df ia pm cal = ia) ∧
    (cal ≠ 0 → calculate_operational_df ia pm cal = max 0 (ia - pm / cal)) ∧
    0 ≤ calculate_operational_df ia pm cal ∧ calculate_operational_df ia pm cal ≤ 1 := by
  unfold calculate_operational_df
  split_ifs with h
  · exact ⟨fun _ => rfl, fun hc => absurd h hc, hia0, hia1⟩
  · refine ⟨fun hc => absurd hc h, fun _ => rfl, le_max_left _ _, max_le (by norm_num) ?_⟩
    have hcal' : 0 < cal := lt_of_le_of_ne hcal (Ne.symm h)
    have hdiv : 0 ≤ pm / cal := div_nonneg hpm hcal'.le
    linarith

/-- Witness for C4 with pm_hours far exceeding calendar_hours: the result
is still inside [0,1]. -/
theorem c4_operational_df_clamped_witness :
    0 ≤ calculate_operational_df (9 / 10) 100 10 ∧
    calculate_operational_df (9 / 10) 100 10 ≤ 1 := by
  have h := c4_operational_df_clamped (9 / 10) 100 10 (by norm_num) (by norm_num)
    (by norm_num) (by norm_num)
  exact ⟨h.2.2.1, h.2.2.2⟩

/-- C5: round-trip of the equation solver over exact rationals — for
mtbf > 0 and mttr > 0, feeding the forward availability back into either
reverse solve recovers the original parameter exactly. -/
theorem c5_round_trip (mtbf mttr : ℚ) (hm : 0 < mtbf) (hr : 0 < mttr) :
    mtbf_for_df mttr (df_from_mtbf_mttr mtbf mttr) = PyFloat.fin mtbf ∧
    mttr_for_df mtbf (df_from_mtbf_mttr mtbf mttr) = PyFloat.fin mttr := by
  have hsum : 0 < mtbf + mttr := by linarith
  have hd : df_from_mtbf_mttr mtbf mttr = mtbf / (mtbf + mttr) := by
    unfold df_from_mtbf_mttr
    rw [if_neg hsum.ne.symm]
  have hd0 : 0 < mtbf / (mtbf + mttr) := div_pos hm hsum
  have hd1 : mtbf / (mtbf + mttr) < 1 := (div_lt_one hsum).mpr (by linarith)
  rw [hd]
  unfold mtbf_for_df mttr_for_df
  rw [if_neg (by linarith), if_neg (by linarith), if_neg (by linarith), if_neg (by linarith)]
  constructor
  · congr 1
    rw [div_eq_iff]
    · field_simp
      ring
    · have : mtbf / (mtbf + mttr) < 1 := hd1
      intro hcontra
      rw [sub_eq_zero] at hcontra
      exact absurd hcontra.symm (ne_of_lt hd1)
  · congr 1
    rw [div_eq_iff hd0.ne.symm]
    field_simp
    ring

/-- Witness for C5 at the spec's concrete scenario mtbf = 500, mttr = 25. -/
theorem c5_round_trip_witness :
    mtbf_for_df 25 (df_from_mtbf_mttr 500 25) = PyFloat.fin 500 ∧
    mttr_for_df 500 (df_from_mtbf_mttr 500 25) = PyFloat.fin 25 :=
  c5_round_trip 500 25 (by norm_num) (by norm_num)

/-- C6: df_from_mtbf_mttr returns mtbf/(mtbf+mttr) whenever the denominator
is nonzero and returns 0 (never raising) when mtbf + mttr = 0; the array
form computes the same scalar function elementwise. -/
theorem c6_df_zero_safe :
    (∀ mtbf mttr : ℚ, (mtbf + mttr = 0 → df_from_mtbf_mttr mtbf mttr = 0) ∧
      (mtbf + mttr ≠ 0 → df_from_mtbf_mttr mtbf mttr = mtbf / (mtbf + mttr))) ∧
    (∀ (ms rs : List ℚ) (i : ℕ) (h1 : i < ms.length) (h2 : i < rs.length),
      (df_from_mtbf_mttr_arr ms rs)[i]? =
        some (df_from_mtbf_mttr (ms.get ⟨i, h1⟩) (rs.get ⟨i, h2⟩))) := by
  constructor
  · intro mtbf mttr
    constructor
    · intro h
      unfold df_from_mtbf_mttr
      rw [if_pos h]
    · intro h
      unfold df_from_mtbf_mttr
      rw [if_neg h]
  · intro ms rs i h1 h2
    have hlen : i < (df_from_mtbf_mttr_arr ms rs).length := by
      simpa [df_from_mtbf_mttr_arr] using ⟨h1, h2⟩
    rw [List.getElem?_eq_getElem hlen]
    simp [df_from_mtbf_mttr_arr, List.getElem_zipWith]

/-- Witness for C6: zero denominator yields 0, the concrete scenario
500/25 yields 500/525, and elementwise evaluation at index 1. -/
theorem c6_df_zero_safe_witness :
    df_from_mtbf_mttr 0 0 = 0 ∧ df_from_mtbf_mttr 500 25 = 500 / 525 ∧
    (df_from_mtbf_mttr_arr [500, 0] [25, 0])[1]? = some (df_from_mtbf_mttr 0 0) := by
  refine ⟨(c6_df_zero_safe.1 0 0).1 (by norm_num), ?_, ?_⟩
  · rw [(c6_df_zero_safe.1 500 25).2 (by norm_num)]
    norm_num
  · have h := c6_df_zero_safe.2 [500, 0] [25, 0] 1 (by norm_num) (by norm_num)
    simpa using h

/-- C9: for nonnegative mtbf and mttr the forward availability always lies
in [0,1] (with the zero-denominator case yielding 0), both for scalars and
elementwise for arrays. -/
theorem c9_df_range :
    (∀ mtbf mttr : ℚ, 0 ≤ mtbf → 0 ≤ mttr →
      0 ≤ df_from_mtbf_mttr mtbf mttr ∧ df_from_mtbf_mttr mtbf mttr ≤ 1 ∧
      (mtbf + mttr = 0 → df_from_mtbf_mttr mtbf mttr = 0)) ∧
    (∀ (ms rs : List ℚ), (∀ a ∈ ms, 0 ≤ a) → (∀ b ∈ rs, 0 ≤ b) →
      ∀ x ∈ df_from_mtbf_mttr_arr ms rs, 0 ≤ x ∧ x ≤ 1) := by
  have scalar : ∀ mtbf mttr : ℚ, 0 ≤ mtbf → 0 ≤ mttr →
      0 ≤ df_from_mtbf_mttr mtbf mttr ∧ df_from_mtbf_mttr mtbf mttr ≤ 1 ∧
      (mtbf + mttr = 0 → df_from_mtbf_mttr mtbf mttr = 0) := by
    intro mtbf mttr hm hr
    have key : df_from_mtbf_mttr mtbf mttr =
        if mtbf + mttr = 0 then 0 else mtbf / (mtbf + mttr) := rfl
    rw [key]
    split_ifs with h
    · exact ⟨le_refl 0, by norm_num, fun _ => rfl⟩
    · have hsum : 0 < mtbf + mttr := lt_of_le_of_ne (by linarith) (Ne.symm h)
      exact ⟨div_nonneg hm hsum.le, (div_le_one hsum).mpr (by linarith), fun hc => absurd hc h⟩
  refine ⟨scalar, ?_⟩
  intro ms rs hms hrs x hx
  induction ms generalizing rs with
  | nil => simp [df_from_mtbf_mttr_arr] at hx
  | cons a as ih =>
    cases rs with
    | nil => simp [df_from_mtbf_mttr_arr] at hx
    | cons b bs =>
      simp only [df_from_mtbf_mttr_arr, List.zipWith_cons_cons, List.mem_cons] at hx
      rcases hx with hx | hx
      · subst hx
        have h := scalar a b (hms a (by simp)) (hrs b (by simp))
        exact ⟨h.1, h.2.1⟩
      · exact ih bs (fun c hc => hms c (List.mem_cons_of_mem a hc))
          (fun c hc => hrs c (List.mem_cons_of_mem b hc)) hx

/-- Witness for C9 at mtbf = 500, mttr = 25 and at the array [0,500],[0,25]. -/
theorem c9_df_range_witness :
    (0 ≤ df_from_mtbf_mttr 500 25 ∧ df_from_mtbf_mttr 500 25 ≤ 1) ∧
    (0 ≤ df_from_mtbf_mttr 0 0 ∧ df_from_mtbf_mttr 0 0 ≤ 1) := by
  have h1 := c9_df_range.1 500 25 (by norm_num) (by norm_num)
  have h2 := c9_df_range.2 [0] [0] (by norm_num) (by norm_num)
    (df_from_mtbf_mttr 0 0) (by simp [df_from_mtbf_mttr_arr])
  exact ⟨⟨h1.1, h1.2.1⟩, h2⟩

/-- C10: calcular_df_projetada is total and lands in [0,1] for nonnegative
accumulated and projected downtime — returning 0 whenever
horas_totais_mes ≤ 0 and max 0 (1 - total/horas) otherwise. -/
theorem c10_df_projetada_total (dr dfp h : ℚ) (h1 : 0 ≤ dr) (h2 : 0 ≤ dfp) :
    0 ≤ calcular_df_projetada dr dfp h ∧ calcular_df_projetada dr dfp h ≤ 1 ∧
    (h ≤ 0 → calcular_df_projetada dr dfp h = 0) ∧
    (0 < h → calcular_df_projetada dr dfp h = max 0 (1 - (dr + dfp) / h)) := by
  unfold calcular_df_projetada
  split_ifs with hh
  · exact ⟨le_refl 0, by norm_num, fun _ => rfl, fun hc => absurd hh (by linarith)⟩
  · push_neg at hh
    have hdiv : 0 ≤ (dr + dfp) / h := div_nonneg (by linarith) hh.le
    exact ⟨le_max_left _ _, max_le (by norm_num) (by linarith),
      fun hc => absurd hc (by linarith), fun _ => rfl⟩

/-- Witness for C10: projected downtime exceeding the month still yields a
value in [0,1], and a nonpositive month yields 0. -/
theorem c10_df_projetada_total_witness :
    (0 ≤ calcular_df_projetada 500 300 720 ∧ calcular_df_projetada 500 300 720 ≤ 1) ∧
    calcular_df_projetada 5 5 0 = 0 := by
  have ha := c10_df_projetada_total 500 300 720 (by norm_num) (by norm_num)
  have hb := c10_df_projetada_total 5 5 0 (by norm_num) (by norm_num)
  exact ⟨⟨ha.1, ha.2.1⟩, hb.2.2.1 (by norm_num)⟩

/-- Counterexample to C3: with calendar_hours = 100, pm_hours = 80 and
corrective_hours = 40 the metodo1 DF computed by calcular_kpis is -20 —
a negative percentage — whereas the claimed clamped fraction
max 0 ((100 - 80 - 40)/100) is 0: the code clamps nothing. -/
theorem c3_kpis_df_not_clamped_counterexample :
    (calcular_kpis 100 80 40 1 "metodo1").df = -20 ∧
    (calcular_kpis 100 80 40 1 "metodo1").df ≠ max 0 ((100 - 80 - 40) / 100) := by
  norm_num [calcular_kpis]

/-- C3 amended: for calendar_hours > 0 the Convention-A (metodo1) DF of
calcular_kpis equals (calendar - pm - corrective)/calendar × 100 — a
percentage, with no clamping — and is negative exactly when
pm_hours + corrective_hours exceeds calendar_hours. -/
theorem c3_kpis_metodo1_df_formula (hc hp hcor nf : ℚ) (h : 0 < hc) :
    (calcular_kpis hc hp hcor nf "metodo1").df = (hc - hp - hcor) / hc * 100 ∧
    ((calcular_kpis hc hp hcor nf "metodo1").df < 0 ↔ hc < hp + hcor) := by
  have key : (calcular_kpis hc hp hcor nf "metodo1").df =
      if hc > 0 then (hc - (hp + hcor)) / hc * 100 else 0 := rfl
  have hdf : (calcular_kpis hc hp hcor nf "metodo1").df = (hc - hp - hcor) / hc * 100 := by
    rw [key, if_pos h]
    ring_nf
  refine ⟨hdf, ?_⟩
  rw [hdf]
  constructor
  · intro hneg
    by_contra hcon
    push_neg at hcon
    have h1 : 0 ≤ hc - hp - hcor := by linarith
    have h2 : 0 ≤ (hc - hp - hcor) / hc * 100 := by positivity
    linarith
  · intro hlt
    have h1 : hc - hp - hcor < 0 := by linarith
    have h2 : (hc - hp - hcor) / hc < 0 := div_neg_of_neg_of_pos h1 h
    linarith

/-- Witness for C3 amended at the spec's concrete scenario 720/40/30
(where the DF is the positive percentage 1625/18 ≈ 90.28) and at the
overflowing scenario 100/80/40 (where it is negative). -/
theorem c3_kpis_metodo1_df_formula_witness :
    (calcular_kpis 720 40 30 5 "metodo1").df = (720 - 40 - 30) / 720 * 100 ∧
    (calcular_kpis 100 80 40 1 "metodo1").df < 0 := by
  refine ⟨(c3_kpis_metodo1_df_formula 720 40 30 5 (by norm_num)).1, ?_⟩
  exact (c3_kpis_metodo1_df_formula 100 80 40 1 (by norm_num)).2.mpr (by norm_num)

/-- C1 failing-input evaluation: on the section-8 scenario with PM cost
1000, corrective cost 5000 and target 85, the selector returns
tempo_otimo = 0 with the sentinel custo_por_hora 0 — the t = 0 sample is
not excluded; its guarded cost-per-hour of 0 wins the minimization, so no
t strictly between 0 and 200 is returned. -/
theorem c1_ponto_otimo_returns_zero_time :
    (calcular_ponto_otimo_intervencao cenario_secao8 85 1000 5000).map
      OptResult.tempo_otimo = some 0 ∧
    (calcular_ponto_otimo_intervencao cenario_secao8 85 1000 5000).map
      OptResult.custo_por_hora_otimo = some 0 := by
  norm_num [calcular_ponto_otimo_intervencao, candidatos, custos_list, cenario_secao8,
    df_calculada, idxmin, tempo_max_alvo_calc, List.filter, List.findIdx, List.findIdx.go,
    List.all, Option.map]

theorem linspace_length (lo hi : ℚ) (n : ℕ) : (linspace lo hi n).length = n := by
  rw [linspace, List.length_map, List.length_range]

theorem linspace_getElem (lo hi : ℚ) (n i : ℕ) (h : i < n) :
    (linspace lo hi n)[i]? = some (lo + (hi - lo) * i / ((n : ℚ) - 1)) := by
  rw [linspace, List.getElem?_map, List.getElem?_range h, Option.map_some']

theorem linspace100_head (lo hi : ℚ) : (linspace lo hi 100).head? = some lo := by
  rw [List.head?_eq_getElem?, linspace_getElem lo hi 100 0 (by norm_num)]
  norm_num

theorem linspace100_last (lo hi : ℚ) : (linspace lo hi 100).getLast? = some hi := by
  rw [List.getLast?_eq_getElem?, linspace_length,
    linspace_getElem lo hi 100 99 (by norm_num)]
  norm_num

theorem interp_two_left (x0 x1 y0 y1 : ℚ) :
    interp_linear [(x0, y0), (x1, y1)] x0 = y0 := by
  simp [interp_linear]

theorem interp_two_right (x0 x1 y0 y1 : ℚ) (h : x0 ≠ x1) :
    interp_linear [(x0, y0), (x1, y1)] x1 = y1 := by
  have hne : x1 - x0 ≠ 0 := sub_ne_zero.mpr (Ne.symm h)
  simp only [interp_linear, or_true, if_true]
  field_simp

/-- C7: on an observation set of exactly 2 distinct points the fitter takes
the linear-interpolation fallback (no exponential parameters returned) and
the 100-point sampled curve passes exactly through both observed points at
its first and last samples; moreover, whichever path runs, the output is
always sampled on linspace(min t, max t, 100) with 100 points in both the
time and the value lists, so the two paths share one output contract. -/
theorem c7_fallback_two_points (env : FitEnv) (x0 x1 y0 y1 : ℚ) (hx : x0 < x1) :
    (ajustar_curva_degradacao env [x0, x1] [y0, y1]).2.2 = none ∧
    (ajustar_curva_degradacao env [x0, x1] [y0, y1]).1.head? = some x0 ∧
    (ajustar_curva_degradacao env [x0, x1] [y0, y1]).1.getLast? = some x1 ∧
    (ajustar_curva_degradacao env [x0, x1] [y0, y1]).2.1.head? = some y0 ∧
    (ajustar_curva_degradacao env [x0, x1] [y0, y1]).2.1.getLast? = some y1 ∧
    (∀ (env2 : FitEnv) (x y : List ℚ),
      (ajustar_curva_degradacao env2 x y).1 = linspace (npMin x) (npMax x) 100 ∧
      (ajustar_curva_degradacao env2 x y).1.length = 100 ∧
      (ajustar_curva_degradacao env2 x y).2.1.length = 100) := by
  have hnone : scipy_curve_fit env [x0, x1] [y0, y1] = none := by
    simp [scipy_curve_fit]
  have hmin : npMin [x0, x1] = x0 := by
    simp [npMin, min_eq_left hx.le]
  have hmax : npMax [x0, x1] = x1 := by
    simp [npMax, max_eq_right hx.le]
  have hout : ajustar_curva_degradacao env [x0, x1] [y0, y1] =
      (linspace x0 x1 100,
       (linspace x0 x1 100).map (interp_linear [(x0, y0), (x1, y1)]), none) := by
    unfold ajustar_curva_degradacao
    rw [hnone, hmin, hmax]
    rfl
  rw [hout]
  refine ⟨rfl, linspace100_head x0 x1, linspace100_last x0 x1, ?_, ?_, ?_⟩
  · rw [List.head?_map, linspace100_head x0 x1, Option.map_some']
    rw [interp_two_left]
  · rw [List.getLast?_map, linspace100_last x0 x1, Option.map_some']
    rw [interp_two_right x0 x1 y0 y1 hx.ne]
  · intro env2 x y
    unfold ajustar_curva_degradacao
    cases h : scipy_curve_fit env2 x y with
    | none => exact ⟨rfl, linspace_length _ _ _, by simp [linspace_length]⟩
    | some popt => exact ⟨rfl, linspace_length _ _ _, by simp [linspace_length]⟩

/-- Witness for C7 on the two-point table (0,200), (200,100) with a fit
oracle that always fails: the fallback path runs and the sampled curve
starts at 200 and ends at 100. -/
theorem c7_fallback_two_points_witness :
    (ajustar_curva_degradacao ⟨fun _ _ => none, id⟩ [0, 200] [200, 100]).2.2 = none ∧
    (ajustar_curva_degradacao ⟨fun _ _ => none, id⟩ [0, 200] [200, 100]).2.1.head? =
      some 200 ∧
    (ajustar_curva_degradacao ⟨fun _ _ => none, id⟩ [0, 200] [200, 100]).2.1.getLast? =
      some 100 := by
  have h := c7_fallback_two_points ⟨fun _ _ => none, id⟩ 0 200 200 100 (by norm_num)
  exact ⟨h.1, h.2.2.2.1, h.2.2.2.2.1⟩

theorem exists_min_elem {α : Type} (f : α → ℚ) (l : List α) (h : l ≠ []) :
    ∃ x ∈ l, ∀ y ∈ l, f x ≤ f y := by
  induction l with
  | nil => exact absurd rfl h
  | cons a as ih =>
    cases as with
    | nil => exact ⟨a, by simp, by simp⟩
    | cons b bs =>
      obtain ⟨x, hx, hmin⟩ := ih (by simp)
      by_cases hfa : f a ≤ f x
      · refine ⟨a, by simp, ?_⟩
        intro y hy
        rcases List.mem_cons.mp hy with rfl | hy
        · exact le_refl _
        · exact le_trans hfa (hmin y hy)
      · push_neg at hfa
        refine ⟨x, List.mem_cons_of_mem a hx, ?_⟩
        intro y hy
        rcases List.mem_cons.mp hy with rfl | hy
        · exact hfa.le
        · exact hmin y hy

theorem idxmin_lt_length {α : Type} (f : α → ℚ) (l : List α) (h : l ≠ []) :
    idxmin f l < l.length := by
  unfold idxmin
  apply List.findIdx_lt_length_of_exists
  obtain ⟨x, hx, hmin⟩ := exists_min_elem f l h
  refine ⟨x, hx, ?_⟩
  rw [List.all_eq_true]
  intro y hy
  exact decide_eq_true (hmin y hy)

theorem idxmin_min_le {α : Type} (f : α → ℚ) (l : List α)
    (hlt : idxmin f l < l.length) (y : α) (hy : y ∈ l) :
    f (l.get ⟨idxmin f l, hlt⟩) ≤ f y := by
  unfold idxmin at hlt ⊢
  have h3 := @List.findIdx_getElem α (fun x => l.all (fun z => decide (f x ≤ f z))) l hlt
  simp only [List.all_eq_true, decide_eq_true_eq] at h3
  rw [List.get_eq_getElem]
  exact h3 y hy

theorem idxmin_le_of_eq {α : Type} (f : α → ℚ) (l : List α)
    (hlt : idxmin f l < l.length) (j : ℕ) (hj : j < l.length)
    (heq : f (l.get ⟨j, hj⟩) = f (l.get ⟨idxmin f l, hlt⟩)) :
    idxmin f l ≤ j := by
  by_contra hcon
  push_neg at hcon
  have hmin : ∀ z ∈ l, f (l.get ⟨j, hj⟩) ≤ f z := by
    intro z hz
    rw [heq]
    exact idxmin_min_le f l hlt z hz
  unfold idxmin at hcon
  have hfalse := @List.not_of_lt_findIdx α
    (fun x => l.all (fun z => decide (f x ≤ f z))) l j hcon
  rw [← Bool.not_eq_true] at hfalse
  apply hfalse
  simp only [List.all_eq_true, decide_eq_true_eq]
  intro z hz
  have hj2 := hmin z hz
  rw [List.get_eq_getElem] at hj2
  exact hj2

theorem custos_pairwise_tempo (obs : List Obs) (cp cc : ℚ)
    (hsort : obs.Pairwise
      (fun a b => a.tempo_desde_preventiva_horas < b.tempo_desde_preventiva_horas)) :
    (custos_list obs cp cc).Pairwise (fun a b => a.tempo < b.tempo) := by
  unfold custos_list
  rw [List.pairwise_map]
  exact hsort.imp (fun h => h)

theorem candidatos_pairwise_tempo (obs : List Obs) (df_alvo cp cc : ℚ)
    (hsort : obs.Pairwise
      (fun a b => a.tempo_desde_preventiva_horas < b.tempo_desde_preventiva_horas)) :
    (candidatos obs df_alvo cp cc).Pairwise (fun a b => a.tempo < b.tempo) := by
  simp only [candidatos]
  split_ifs with h
  · exact (custos_pairwise_tempo obs cp cc hsort).filter _
  · exact custos_pairwise_tempo obs cp cc hsort

/-- C8: on an ordered observation table (strictly increasing times) the
selector picks, among the candidate rows (the viable subset when nonempty,
the full cost table otherwise), a row of minimal custo_por_hora, and
whenever another candidate row attains exactly the same minimal cost the
returned tempo_otimo is at most that row's time — i.e. ties go to the
earliest sampled time, pandas idxmin returning the first minimum. -/
theorem c8_tie_break_earliest (obs : List Obs) (df_alvo cp cc : ℚ)
    (hsort : obs.Pairwise
      (fun a b => a.tempo_desde_preventiva_horas < b.tempo_desde_preventiva_horas))
    (r : OptResult)
    (hr : calcular_ponto_otimo_intervencao obs df_alvo cp cc = some r) :
    (∃ c ∈ candidatos obs df_alvo cp cc,
        c.tempo = r.tempo_otimo ∧ c.custo_por_hora = r.custo_por_hora_otimo) ∧
    ∀ c ∈ candidatos obs df_alvo cp cc,
      r.custo_por_hora_otimo ≤ c.custo_por_hora ∧
      (c.custo_por_hora = r.custo_por_hora_otimo → r.tempo_otimo ≤ c.tempo) := by
  simp only [calcular_ponto_otimo_intervencao] at hr
  set cand := candidatos obs df_alvo cp cc with hcanddef
  set i := idxmin CostRow.custo_por_hora cand with hidef
  cases hopt : cand[i]? with
  | none =>
    rw [hopt] at hr
    simp at hr
  | some p =>
    rw [hopt] at hr
    injection hr with hinj
    have hne : cand ≠ [] := by
      intro hnil
      rw [hnil] at hopt
      simp at hopt
    have hlt : i < cand.length := idxmin_lt_length _ cand hne
    have hpget : cand.get ⟨i, hlt⟩ = p := by
      have h2 := (List.getElem?_eq_getElem hlt).symm.trans hopt
      rw [List.get_eq_getElem]
      exact Option.some.inj h2
    have hrt : r.tempo_otimo = p.tempo := by rw [← hinj]
    have hrc : r.custo_por_hora_otimo = p.custo_por_hora := by rw [← hinj]
    constructor
    · exact ⟨p, by rw [← hpget]; exact List.get_mem cand i hlt, by rw [hrt], by rw [hrc]⟩
    · intro c hc
      constructor
      · rw [hrc, ← hpget]
        exact idxmin_min_le CostRow.custo_por_hora cand hlt c hc
      · intro hcc
        obtain ⟨j, hj, hcj⟩ := List.getElem_of_mem hc
        have heq : CostRow.custo_por_hora (cand.get ⟨j, hj⟩) =
            CostRow.custo_por_hora (cand.get ⟨i, hlt⟩) := by
          rw [List.get_eq_getElem, hcj, hpget, hcc, hrc]
        have hle := idxmin_le_of_eq CostRow.custo_por_hora cand hlt j hj heq
        rcases lt_or_eq_of_le hle with hij | hij
        · have hp2 := candidatos_pairwise_tempo obs df_alvo cp cc hsort
          rw [← hcanddef, List.pairwise_iff_getElem] at hp2
          have hij2 : i < j := lt_of_eq_of_lt hidef hij
          have hlt2 := hp2 i j hlt hj hij2
          rw [hrt, ← hcj, ← hpget, List.get_eq_getElem]
          exact hlt2.le
        · have hij3 : i = j := hidef.trans hij
          have hfin : (⟨i, hlt⟩ : Fin cand.length) = ⟨j, hj⟩ := Fin.ext hij3
          have hcp : c = p := by
            rw [← hpget, hfin, List.get_eq_getElem]
            exact hcj.symm
          rw [hrt, hcp]

/-- Witness for C8: on obs_tie the selector returns r_tie, whose cost per
hour is at most the tied later row's 1000 and whose returned time is at
most the tied later row's time 2 — the earlier tie wins. -/
theorem c8_tie_break_earliest_witness :
    calcular_ponto_otimo_intervencao obs_tie 85 1000 1000 = some r_tie ∧
    r_tie.custo_por_hora_otimo ≤ (1000 : ℚ) ∧ r_tie.tempo_otimo ≤ (2 : ℚ) := by
  have hr : calcular_ponto_otimo_intervencao obs_tie 85 1000 1000 = some r_tie := by
    norm_num [calcular_ponto_otimo_intervencao, candidatos, custos_list, obs_tie,
      df_calculada, idxmin, tempo_max_alvo_calc, List.filter, List.findIdx,
      List.findIdx.go, List.all, r_tie]
  have h := c8_tie_break_earliest obs_tie 85 1000 1000 (by
    norm_num [obs_tie, List.Pairwise]) r_tie hr
  have hc : (⟨2, 2000, 1000, 100⟩ : CostRow) ∈ candidatos obs_tie 85 1000 1000 := by
    norm_num [candidatos, custos_list, obs_tie, df_calculada, List.filter]
  have h2 := h.2 ⟨2, 2000, 1000, 100⟩ hc
  refine ⟨hr, ?_, ?_⟩
  · exact le_of_le_of_eq h2.1 rfl
  · exact le_of_le_of_eq (h2.2 (by norm_num [r_tie])) rfl

end OPM
